import Mathlib

/-! Verification of the sync.Mutex implementations in this repository.

The repository holds two mutex implementations:
  * `src/go-go1.16/src/sync/mutex.go` — the go1.16 mutex with normal and
    starvation modes (embedded below in namespace `GoSync`), and
  * `src/unnamed/part_000` — an older mutex without a starving bit and with
    waiter-count shift 2 (embedded below in namespace `GoSyncOld`).

The int32 state word is embedded as a `Nat` holding the 32-bit pattern;
wrap-around arithmetic of `atomic.AddInt32` is made explicit with `% 2^32`.
Fatal errors (`throw` / run-time errors) are modelled with `Except String`.
Semaphore signals (`runtime_Semrelease`) are recorded as a list of the
hand-off flags passed to the runtime.

The ConcurrentMap described by the specification has no source file under
`src/`; it is modelled from the specification in namespace `SpecMap`.
-/

namespace GoSync

/-- mutex.go line 37: the locked bit. -/
def mutexLocked : Nat := 1

/-- mutex.go line 38: the woken bit. -/
def mutexWoken : Nat := 2

/-- mutex.go line 39: the starving bit. -/
def mutexStarving : Nat := 4

/-- mutex.go line 40: the waiter count occupies the bits above this shift. -/
def mutexWaiterShift : Nat := 3

/-- The modulus of 32-bit wrap-around arithmetic on the int32 state word. -/
def word32 : Nat := 4294967296

/-- Go `atomic.AddInt32` on the state word's 32-bit pattern: add a possibly
negative delta, wrapping modulo 2^32. -/
def addInt32 (x : Nat) (d : Int) : Nat := (((x : Int) + d) % (word32 : Int)).toNat

/-- Go's bit-clear operator `a &^ b` (AND NOT): keeps the bits of `a` where
`b` is zero, which on bit patterns equals `a ^^^ (a &&& b)`. -/
def andNot (a b : Nat) : Nat := a ^^^ (a &&& b)

end GoSync

/-! Arithmetic views of the bit operations used by the state word. -/

theorem nat_and_one (x : Nat) : x &&& 1 = x % 2 := Nat.and_one_is_mod x

theorem nat_and_two (x : Nat) : x &&& 2 = x / 2 % 2 * 2 := by
  have h1 : (x &&& 2) % 2 = 0 := by
    have h := @Nat.and_mod_two_eq_one x 2
    omega
  have h2 : (x &&& 2) / 2 = x / 2 % 2 := by
    have h := @Nat.and_div_two x 2
    simpa [Nat.and_one_is_mod] using h
  omega

theorem nat_and_four (x : Nat) : x &&& 4 = x / 4 % 2 * 4 := by
  have h1 : (x &&& 4) % 2 = 0 := by
    have h := @Nat.and_mod_two_eq_one x 4
    omega
  have h2 : (x &&& 4) / 2 = x / 2 &&& 2 := @Nat.and_div_two x 4
  have h3 : x / 2 &&& 2 = x / 2 / 2 % 2 * 2 := nat_and_two (x / 2)
  have h4 : x / 2 / 2 = x / 4 := by omega
  omega

theorem nat_and_three (x : Nat) : x &&& 3 = x % 4 := by
  have h := Nat.and_pow_two_sub_one_eq_mod x 2
  norm_num at h
  exact h

theorem nat_and_five (x : Nat) : x &&& 5 = x / 4 % 2 * 4 + x % 2 := by
  have h1 : (x &&& 5) % 2 = x % 2 := by
    have h := @Nat.and_mod_two_eq_one x 5
    omega
  have h2 : (x &&& 5) / 2 = x / 2 &&& 2 := @Nat.and_div_two x 5
  have h3 : x / 2 &&& 2 = x / 2 / 2 % 2 * 2 := nat_and_two (x / 2)
  have h4 : x / 2 / 2 = x / 4 := by omega
  omega

theorem nat_and_seven (x : Nat) : x &&& 7 = x % 8 := by
  have h := Nat.and_pow_two_sub_one_eq_mod x 3
  norm_num at h
  exact h

theorem nat_shr_three (x : Nat) : x >>> 3 = x / 8 := by
  have h := Nat.shiftRight_eq_div_pow x 3
  norm_num at h
  exact h

theorem nat_shr_two (x : Nat) : x >>> 2 = x / 4 := by
  have h := Nat.shiftRight_eq_div_pow x 2
  norm_num at h
  exact h

theorem nat_or_one (x : Nat) : x ||| 1 = x / 2 * 2 + 1 := by
  have h1 : (x ||| 1) % 2 = 1 := by
    have h := @Nat.or_mod_two_eq_one x 1
    omega
  have h2 : (x ||| 1) / 2 = x / 2 := by
    have h := @Nat.or_div_two x 1
    simpa using h
  omega

theorem nat_or_two (x : Nat) : x ||| 2 = x / 4 * 4 + 2 + x % 2 := by
  have h1 : (x ||| 2) % 2 = x % 2 := by
    have h := @Nat.or_mod_two_eq_one x 2
    omega
  have h2 : (x ||| 2) / 2 = x / 2 ||| 1 := @Nat.or_div_two x 2
  have h3 : x / 2 ||| 1 = x / 2 / 2 * 2 + 1 := nat_or_one (x / 2)
  have h4 : x / 2 / 2 = x / 4 := by omega
  omega

theorem nat_or_four (x : Nat) : x ||| 4 = x / 8 * 8 + 4 + x % 4 := by
  have h1 : (x ||| 4) % 2 = x % 2 := by
    have h := @Nat.or_mod_two_eq_one x 4
    omega
  have h2 : (x ||| 4) / 2 = x / 2 ||| 2 := @Nat.or_div_two x 4
  have h3 : x / 2 ||| 2 = x / 2 / 4 * 4 + 2 + x / 2 % 2 := nat_or_two (x / 2)
  have h4 : x / 2 / 4 = x / 8 := by omega
  omega

theorem nat_xor_two (x : Nat) : x ^^^ 2 = x / 4 * 4 + (1 - x / 2 % 2) * 2 + x % 2 := by
  have h1 : (x ^^^ 2) % 2 = x % 2 := by
    have h := @Nat.xor_mod_two_eq_one x 2
    omega
  have h2 : (x ^^^ 2) / 2 = x / 2 ^^^ 1 := @Nat.xor_div_two x 2
  have h3 : (x / 2 ^^^ 1) % 2 = 1 - x / 2 % 2 := by
    have h := @Nat.xor_mod_two_eq_one (x / 2) 1
    omega
  have h4 : (x / 2 ^^^ 1) / 2 = x / 4 := by
    have h := @Nat.xor_div_two (x / 2) 1
    simp at h
    omega
  omega

theorem goSync_andNot_two (x : Nat) : GoSync.andNot x 2 = x / 4 * 4 + x % 2 := by
  unfold GoSync.andNot
  have h2 : x &&& 2 = x / 2 % 2 * 2 := nat_and_two x
  rcases Nat.mod_two_eq_zero_or_one (x / 2) with h | h
  · rw [h2, h]
    simpa using by omega
  · rw [h2, h]
    norm_num
    have h3 := nat_xor_two x
    omega

namespace GoSync

/-! Unlock (mutex.go lines 201-249).

The slow-path wake loop re-reads the state word after a failed CAS; the
`interference` argument lists the values other threads leave in the state
word, one consumed per failed CAS.  With no interference the first CAS
succeeds.  The returned list records the hand-off flag of each
`runtime_Semrelease` call (`false` = FIFO wake, `true` = LIFO hand-off). -/

/-- The normal-mode wake loop of `unlockSlow` (mutex.go lines 223-241). -/
def unlockSlowNormalLoop (old : Nat) : List Nat → Nat × List Bool
  | [] =>
    if old >>> mutexWaiterShift = 0 ∨ old &&& (mutexLocked ||| mutexWoken ||| mutexStarving) ≠ 0 then
      (old, [])
    else
      ((addInt32 old (-((1 <<< mutexWaiterShift : Nat) : Int))) ||| mutexWoken, [false])
  | s :: rest =>
    if old >>> mutexWaiterShift = 0 ∨ old &&& (mutexLocked ||| mutexWoken ||| mutexStarving) ≠ 0 then
      (old, [])
    else
      unlockSlowNormalLoop s rest

/-- Slow path `unlockSlow` (mutex.go lines 217-249), hand-off and fatal-error structure. -/
def unlockSlow (new : Nat) (interference : List Nat) : Except String (Nat × List Bool) :=
  if (new + mutexLocked) % word32 &&& mutexLocked = 0 then
    .error "sync: unlock of unlocked mutex"
  else if new &&& mutexStarving = 0 then
    .ok (unlockSlowNormalLoop new interference)
  else
    .ok (new, [true])

/-- Release path `Unlock` (mutex.go lines 201-215): atomically drop the locked bit; if the
resulting word is non-zero, run the slow path. -/
def Unlock (state : Nat) (interference : List Nat) : Except String (Nat × List Bool) :=
  let new := addInt32 state (-(mutexLocked : Int))
  if new ≠ 0 then unlockSlow new interference else .ok (new, [])

end GoSync

theorem goSync_sub_locked (x : Nat) (h : x < GoSync.word32) :
    GoSync.addInt32 x (-(GoSync.mutexLocked : Int)) =
      if x = 0 then GoSync.word32 - 1 else x - 1 := by
  unfold GoSync.addInt32 GoSync.mutexLocked GoSync.word32 at *
  split <;> omega

/-- Claim C2: `Unlock` raises the fatal error "sync: unlock of unlocked mutex"
exactly when the pre-call state word does not hold the locked bit, and the
error is triggered by the locked bit being clear in the word obtained by adding
the locked bit back to the post-subtract word; when the lock was held, no error
is raised. -/
theorem goSync_unlock_fatal_iff_unlocked (state : Nat) (l : List Nat)
    (h32 : state < GoSync.word32) :
    (GoSync.Unlock state l = .error "sync: unlock of unlocked mutex" ↔
      state &&& GoSync.mutexLocked = 0) ∧
    ((GoSync.addInt32 state (-(GoSync.mutexLocked : Int)) + GoSync.mutexLocked) % GoSync.word32 &&&
        GoSync.mutexLocked = 0 ↔ state &&& GoSync.mutexLocked = 0) := by
  have hsub := goSync_sub_locked state h32
  simp only [GoSync.Unlock, GoSync.unlockSlow, hsub]
  have hw : GoSync.word32 = 4294967296 := rfl
  have hL : GoSync.mutexLocked = 1 := rfl
  rw [hw] at h32
  by_cases h0 : state = 0
  · subst h0
    simp only [if_pos rfl, hw, hL]
    norm_num
  · simp only [if_neg h0, hw, hL]
    rcases Nat.mod_two_eq_zero_or_one state with hpar | hpar
    · -- locked bit clear: state even and non-zero, so new = state - 1 is odd and non-zero
      have hmod : (state - 1 + 1) % 4294967296 = state := by omega
      have hand : state &&& 1 = 0 := by rw [nat_and_one]; omega
      have hnz : state - 1 ≠ 0 := by omega
      simp [hnz, hmod, hand]
    · -- locked bit set: new = state - 1 is even, either zero or handled without error
      have hmod : (state - 1 + 1) % 4294967296 = state := by omega
      have hand : state &&& 1 = 1 := by rw [nat_and_one]; omega
      by_cases hz : state - 1 = 0
      · simp [hz, hand]
      · simp only [ne_eq, hz, not_false_iff, if_true, hmod, hand]
        norm_num
        split <;> simp

namespace GoSync

/-! Acquisition slow path lockSlow (mutex.go lines 85-193).

`lockSlowPreCandidate` is the candidate-state computation of lines 110-129
performed on an observed state `old` not taken by the spin branch;
`lockSlowCandidate` adds the woken-bit fixup of lines 130-137 (`throw` on an
inconsistent woken bit).  `lockSlowHandoff` is the starvation hand-off fixup
of lines 155-181, run after waking when the freshly read state has the
starving bit set. -/

/-- Candidate new state, mutex.go lines 110-129. -/
def lockSlowPreCandidate (old : Nat) (starving : Bool) : Nat :=
  let new := old
  let new := if old &&& mutexStarving = 0 then new ||| mutexLocked else new
  let new := if old &&& (mutexLocked ||| mutexStarving) ≠ 0 then
      addInt32 new (((1 <<< mutexWaiterShift : Nat) : Int)) else new
  if starving = true ∧ old &&& mutexLocked ≠ 0 then new ||| mutexStarving else new

/-- Candidate new state with the woken-bit fixup, mutex.go lines 110-137. -/
def lockSlowCandidate (old : Nat) (starving awoke : Bool) : Except String Nat :=
  let new := lockSlowPreCandidate old starving
  if awoke = true then
    if new &&& mutexWoken = 0 then .error "sync: inconsistent mutex state"
    else .ok (andNot new mutexWoken)
  else
    .ok new

/-- Starvation hand-off fixup, mutex.go lines 155-181: consistency check, then
one atomic add of `mutexLocked - 1<<mutexWaiterShift`, additionally subtracting
`mutexStarving` when this goroutine is not starving or it was the last waiter. -/
def lockSlowHandoff (old : Nat) (starving : Bool) : Except String Nat :=
  if old &&& (mutexLocked ||| mutexWoken) ≠ 0 ∨ old >>> mutexWaiterShift = 0 then
    .error "sync: inconsistent mutex state"
  else
    let delta : Int := (mutexLocked : Int) - ((1 <<< mutexWaiterShift : Nat) : Int)
    let delta := if ¬starving = true ∨ old >>> mutexWaiterShift = 1 then
        delta - (mutexStarving : Int) else delta
    .ok (addInt32 old delta)

end GoSync

theorem goSync_add_waiter (x : Nat) (h : x + 8 < GoSync.word32) :
    GoSync.addInt32 x ((1 <<< GoSync.mutexWaiterShift : Nat) : Int) = x + 8 := by
  have hs : (1 <<< GoSync.mutexWaiterShift : Nat) = 8 := rfl
  rw [hs]
  unfold GoSync.addInt32 GoSync.word32 at *
  omega

theorem goSync_preCandidate_char (old : Nat) (starving : Bool)
    (h32 : old + 9 < GoSync.word32) :
    GoSync.lockSlowPreCandidate old starving % 2 = (if old / 4 % 2 = 0 then 1 else old % 2) ∧
    GoSync.lockSlowPreCandidate old starving / 2 % 2 = old / 2 % 2 ∧
    GoSync.lockSlowPreCandidate old starving / 4 % 2 =
      (if old / 4 % 2 = 1 ∨ (starving = true ∧ old % 2 = 1) then 1 else 0) ∧
    GoSync.lockSlowPreCandidate old starving / 8 =
      old / 8 + (if old % 2 = 1 ∨ old / 4 % 2 = 1 then 1 else 0) ∧
    GoSync.lockSlowPreCandidate old starving < GoSync.word32 := by
  have hw : GoSync.word32 = 4294967296 := rfl
  have hL : GoSync.mutexLocked = 1 := rfl
  have hSv : GoSync.mutexStarving = 4 := rfl
  have hLS : (1 ||| 4 : Nat) = 5 := rfl
  have ha4 := nat_and_four old
  have ha5 := nat_and_five old
  have ha1 := nat_and_one old
  rw [hw] at h32
  unfold GoSync.lockSlowPreCandidate
  rw [hL, hSv]
  by_cases hS : old &&& 4 = 0
  · have s0 : old / 4 % 2 = 0 := by omega
    by_cases hI : old &&& (1 ||| 4) ≠ 0
    · have l1 : old % 2 = 1 := by rw [hLS] at hI; omega
      have hor := nat_or_one old
      have hadd : GoSync.addInt32 (old ||| 1) ((1 <<< GoSync.mutexWaiterShift : Nat) : Int) =
          (old ||| 1) + 8 := goSync_add_waiter _ (by rw [hw]; omega)
      by_cases hT : starving = true ∧ old &&& 1 ≠ 0
      · simp only [if_pos hS, if_pos hI, if_pos hT, hadd]
        have hor4 := nat_or_four ((old ||| 1) + 8)
        rw [hw]
        refine ⟨?_, ?_, ?_, ?_, ?_⟩
        · rw [if_pos s0]; omega
        · omega
        · rw [if_pos (Or.inr ⟨hT.1, l1⟩)]; omega
        · rw [if_pos (Or.inl l1)]; omega
        · omega
      · simp only [if_pos hS, if_pos hI, if_neg hT, hadd]
        have hT2 : ¬(old / 4 % 2 = 1 ∨ starving = true ∧ old % 2 = 1) := by
          rintro (hc | hc)
          · omega
          · exact hT ⟨hc.1, by omega⟩
        rw [hw]
        refine ⟨?_, ?_, ?_, ?_, ?_⟩
        · rw [if_pos s0]; omega
        · omega
        · rw [if_neg hT2]; omega
        · rw [if_pos (Or.inl l1)]; omega
        · omega
    · have l0 : old % 2 = 0 := by rw [hLS] at hI; omega
      have hor := nat_or_one old
      have hT : ¬(starving = true ∧ old &&& 1 ≠ 0) := by
        rintro ⟨_, hc⟩
        omega
      simp only [if_pos hS, if_neg hI, if_neg hT]
      have hT2 : ¬(old / 4 % 2 = 1 ∨ starving = true ∧ old % 2 = 1) := by
        rintro (hc | hc) <;> omega
      have hI2 : ¬(old % 2 = 1 ∨ old / 4 % 2 = 1) := by
        rintro (hc | hc) <;> omega
      rw [hw]
      refine ⟨?_, ?_, ?_, ?_, ?_⟩
      · rw [if_pos s0]; omega
      · omega
      · rw [if_neg hT2]; omega
      · rw [if_neg hI2]; omega
      · omega
  · have s1 : old / 4 % 2 = 1 := by omega
    have hI : old &&& (1 ||| 4) ≠ 0 := by rw [hLS]; omega
    have hadd : GoSync.addInt32 old ((1 <<< GoSync.mutexWaiterShift : Nat) : Int) = old + 8 :=
      goSync_add_waiter _ (by rw [hw]; omega)
    by_cases hT : starving = true ∧ old &&& 1 ≠ 0
    · simp only [if_neg hS, if_pos hI, if_pos hT, hadd]
      have hor4 := nat_or_four (old + 8)
      rw [hw]
      refine ⟨?_, ?_, ?_, ?_, ?_⟩
      · rw [if_neg (by omega : ¬old / 4 % 2 = 0)]; omega
      · omega
      · rw [if_pos (Or.inl s1)]; omega
      · rw [if_pos (Or.inr s1)]; omega
      · omega
    · simp only [if_neg hS, if_pos hI, if_neg hT, hadd]
      rw [hw]
      refine ⟨?_, ?_, ?_, ?_, ?_⟩
      · rw [if_neg (by omega : ¬old / 4 % 2 = 0)]; omega
      · omega
      · rw [if_pos (Or.inl s1)]; omega
      · rw [if_pos (Or.inr s1)]; omega
      · omega

/-- Claim C5: for every observed old state not taken by the spin branch, the
candidate new state is old with the locked bit set when old's starving bit is
clear, waiterCount incremented by one exactly when old is locked or starving,
the starving bit set when this thread is starving and old is locked, and the
woken bit cleared when the thread was woken, with the fatal error
"sync: inconsistent mutex state" raised exactly when the thread was woken but
the candidate's woken bit was clear at that point (the candidate's woken bit
there equals old's). -/
theorem goSync_lockSlow_candidate_spec (old : Nat) (starving awoke : Bool) (r : Nat)
    (h32 : old + 9 < GoSync.word32) :
    (GoSync.lockSlowCandidate old starving awoke = .error "sync: inconsistent mutex state" ↔
      awoke = true ∧ old &&& GoSync.mutexWoken = 0) ∧
    (GoSync.lockSlowCandidate old starving awoke = .ok r →
      (r &&& GoSync.mutexLocked ≠ 0 ↔
        old &&& GoSync.mutexStarving = 0 ∨ old &&& GoSync.mutexLocked ≠ 0) ∧
      r >>> GoSync.mutexWaiterShift =
        old >>> GoSync.mutexWaiterShift +
          (if old &&& (GoSync.mutexLocked ||| GoSync.mutexStarving) ≠ 0 then 1 else 0) ∧
      (r &&& GoSync.mutexStarving ≠ 0 ↔
        old &&& GoSync.mutexStarving ≠ 0 ∨ (starving = true ∧ old &&& GoSync.mutexLocked ≠ 0)) ∧
      r &&& GoSync.mutexWoken = (if awoke = true then 0 else old &&& GoSync.mutexWoken)) := by
  obtain ⟨hc1, hc2, hc3, hc4, hc5⟩ := goSync_preCandidate_char old starving h32
  have hW : GoSync.mutexWoken = 2 := rfl
  have hL : GoSync.mutexLocked = 1 := rfl
  have hSv : GoSync.mutexStarving = 4 := rfl
  have hLS : (1 ||| 4 : Nat) = 5 := rfl
  have hsh : GoSync.mutexWaiterShift = 3 := rfl
  have ha1o := nat_and_one old
  have ha2o := nat_and_two old
  have ha4o := nat_and_four old
  have ha5o := nat_and_five old
  have hs3o := nat_shr_three old
  have ha2p := nat_and_two (GoSync.lockSlowPreCandidate old starving)
  -- convert the if-characterizations into disjunctive, if-free facts
  have hc1x : (old / 4 % 2 = 0 ∧ GoSync.lockSlowPreCandidate old starving % 2 = 1) ∨
      (old / 4 % 2 ≠ 0 ∧ GoSync.lockSlowPreCandidate old starving % 2 = old % 2) := by
    by_cases hc : old / 4 % 2 = 0
    · rw [if_pos hc] at hc1
      exact Or.inl ⟨hc, hc1⟩
    · rw [if_neg hc] at hc1
      exact Or.inr ⟨hc, hc1⟩
  have hc3x : ((old / 4 % 2 = 1 ∨ (starving = true ∧ old % 2 = 1)) ∧
        GoSync.lockSlowPreCandidate old starving / 4 % 2 = 1) ∨
      (¬(old / 4 % 2 = 1 ∨ (starving = true ∧ old % 2 = 1)) ∧
        GoSync.lockSlowPreCandidate old starving / 4 % 2 = 0) := by
    by_cases hc : old / 4 % 2 = 1 ∨ (starving = true ∧ old % 2 = 1)
    · rw [if_pos hc] at hc3
      exact Or.inl ⟨hc, hc3⟩
    · rw [if_neg hc] at hc3
      exact Or.inr ⟨hc, hc3⟩
  have hc4x : ((old % 2 = 1 ∨ old / 4 % 2 = 1) ∧
        GoSync.lockSlowPreCandidate old starving / 8 = old / 8 + 1) ∨
      (¬(old % 2 = 1 ∨ old / 4 % 2 = 1) ∧
        GoSync.lockSlowPreCandidate old starving / 8 = old / 8) := by
    by_cases hc : old % 2 = 1 ∨ old / 4 % 2 = 1
    · rw [if_pos hc] at hc4
      exact Or.inl ⟨hc, hc4⟩
    · rw [if_neg hc] at hc4
      exact Or.inr ⟨hc, hc4⟩
  simp only [GoSync.lockSlowCandidate]
  rw [hW, hL, hSv, hLS, hsh]
  by_cases hA : awoke = true
  · simp only [hA, eq_self_iff_true, if_true]
    by_cases hK : GoSync.lockSlowPreCandidate old starving &&& 2 = 0
    · simp only [if_pos hK]
      have hK2 : old &&& 2 = 0 := by omega
      constructor
      · simp [hK2]
      · intro h
        exact Except.noConfusion h
    · simp only [if_neg hK]
      have hK2 : old &&& 2 ≠ 0 := by omega
      constructor
      · simp [hK2]
      · intro h
        have hr : GoSync.andNot (GoSync.lockSlowPreCandidate old starving) 2 = r := by
          injection h
        have han := goSync_andNot_two (GoSync.lockSlowPreCandidate old starving)
        rw [← hr]
        have ha1r := nat_and_one (GoSync.andNot (GoSync.lockSlowPreCandidate old starving) 2)
        have ha2r := nat_and_two (GoSync.andNot (GoSync.lockSlowPreCandidate old starving) 2)
        have ha4r := nat_and_four (GoSync.andNot (GoSync.lockSlowPreCandidate old starving) 2)
        have hs3r := nat_shr_three (GoSync.andNot (GoSync.lockSlowPreCandidate old starving) 2)
        refine ⟨?_, ?_, ?_, ?_⟩
        · by_cases ht : starving = true
          · simp only [eq_true ht, true_and] at hc3x ⊢
            omega
          · simp only [eq_false ht, false_and, or_false] at hc3x ⊢
            omega
        · by_cases hI5 : old &&& 5 ≠ 0
          · rw [if_pos hI5]
            omega
          · rw [if_neg hI5]
            omega
        · by_cases ht : starving = true
          · simp only [eq_true ht, true_and] at hc3x ⊢
            omega
          · simp only [eq_false ht, false_and, or_false] at hc3x ⊢
            omega
        · omega
  · simp only [if_neg hA]
    constructor
    · simp [hA]
    · intro h
      have hr : GoSync.lockSlowPreCandidate old starving = r := by
        injection h
      rw [← hr]
      have ha1p := nat_and_one (GoSync.lockSlowPreCandidate old starving)
      have ha4p := nat_and_four (GoSync.lockSlowPreCandidate old starving)
      have hs3p := nat_shr_three (GoSync.lockSlowPreCandidate old starving)
      refine ⟨?_, ?_, ?_, ?_⟩
      · by_cases ht : starving = true
        · simp only [eq_true ht, true_and] at hc3x ⊢
          omega
        · simp only [eq_false ht, false_and, or_false] at hc3x ⊢
          omega
      · by_cases hI5 : old &&& 5 ≠ 0
        · rw [if_pos hI5]
          omega
        · rw [if_neg hI5]
          omega
      · by_cases ht : starving = true
        · simp only [eq_true ht, true_and] at hc3x ⊢
          omega
        · simp only [eq_false ht, false_and, or_false] at hc3x ⊢
          omega
      · omega

/-- Claim C7: in the hand-off branch of the acquire path (entered when the
freshly read state has the starving bit set), the fatal error
"sync: inconsistent mutex state" is raised exactly when the observed state has
the locked bit set, or the woken bit set, or zero waiters. -/
theorem goSync_handoff_consistency_check (old : Nat) (starving : Bool)
    (hst : old &&& GoSync.mutexStarving ≠ 0) :
    GoSync.lockSlowHandoff old starving = .error "sync: inconsistent mutex state" ↔
      (old &&& GoSync.mutexLocked ≠ 0 ∨ old &&& GoSync.mutexWoken ≠ 0 ∨
        old >>> GoSync.mutexWaiterShift = 0) := by
  have hLW : (GoSync.mutexLocked ||| GoSync.mutexWoken) = 3 := rfl
  have hL : GoSync.mutexLocked = 1 := rfl
  have hW : GoSync.mutexWoken = 2 := rfl
  have hsh : GoSync.mutexWaiterShift = 3 := rfl
  have ha3 := nat_and_three old
  have ha1 := nat_and_one old
  have ha2 := nat_and_two old
  have hs3 := nat_shr_three old
  simp only [GoSync.lockSlowHandoff]
  rw [hLW, hL, hW, hsh]
  by_cases hG : old &&& 3 ≠ 0 ∨ old >>> 3 = 0
  · rw [if_pos hG]
    have hR : old &&& 1 ≠ 0 ∨ old &&& 2 ≠ 0 ∨ old >>> 3 = 0 := by omega
    exact iff_of_true rfl hR
  · rw [if_neg hG]
    have hR : ¬(old &&& 1 ≠ 0 ∨ old &&& 2 ≠ 0 ∨ old >>> 3 = 0) := by omega
    exact iff_of_false (by simp) hR

theorem goSync_handoff_ok (old r : Nat) (starving : Bool)
    (h32 : old < GoSync.word32)
    (hst : old &&& GoSync.mutexStarving ≠ 0)
    (hok : GoSync.lockSlowHandoff old starving = .ok r) :
    old % 4 = 0 ∧ old / 4 % 2 = 1 ∧ 1 ≤ old / 8 ∧
    (((¬starving = true ∨ old / 8 = 1) ∧ r = old - 11) ∨
     ((starving = true ∧ old / 8 ≠ 1) ∧ r = old - 7)) := by
  have hLW : (GoSync.mutexLocked ||| GoSync.mutexWoken) = 3 := rfl
  have hsh : GoSync.mutexWaiterShift = 3 := rfl
  have ha3 := nat_and_three old
  have ha4 := nat_and_four old
  have hs3 := nat_shr_three old
  have hSv : GoSync.mutexStarving = 4 := rfl
  rw [hSv] at hst
  simp only [GoSync.lockSlowHandoff] at hok
  rw [hLW, hsh] at hok
  by_cases hG : old &&& 3 ≠ 0 ∨ old >>> 3 = 0
  · rw [if_pos hG] at hok
    exact absurd hok (by simp)
  · rw [if_neg hG] at hok
    push_neg at hG
    have hlow : old % 4 = 0 := by omega
    have hbit : old / 4 % 2 = 1 := by omega
    have hwc : 1 ≤ old / 8 := by omega
    have hge : 12 ≤ old := by omega
    refine ⟨hlow, hbit, hwc, ?_⟩
    by_cases hC : ¬starving = true ∨ old >>> 3 = 1
    · rw [if_pos hC] at hok
      have hdelta : GoSync.addInt32 old
          ((GoSync.mutexLocked : Int) - ((1 <<< 3 : Nat) : Int) - (GoSync.mutexStarving : Int)) =
            old - 11 := by
        have e : ((GoSync.mutexLocked : Int) - ((1 <<< 3 : Nat) : Int) -
            (GoSync.mutexStarving : Int)) = -11 := by decide
        rw [e]
        unfold GoSync.addInt32 GoSync.word32 at *
        omega
      rw [hdelta] at hok
      cases hok
      left
      refine ⟨?_, rfl⟩
      rcases hC with h | h
      · exact Or.inl h
      · right
        omega
    · rw [if_neg hC] at hok
      have hdelta : GoSync.addInt32 old
          ((GoSync.mutexLocked : Int) - ((1 <<< 3 : Nat) : Int)) = old - 7 := by
        have e : ((GoSync.mutexLocked : Int) - ((1 <<< 3 : Nat) : Int)) = -7 := by decide
        rw [e]
        unfold GoSync.addInt32 GoSync.word32 at *
        omega
      rw [hdelta] at hok
      cases hok
      right
      push_neg at hC
      refine ⟨⟨hC.1, ?_⟩, rfl⟩
      have := hC.2
      omega

/-- Claim C4: after waking with the starving bit observed set, the single
atomic update of the hand-off branch yields a state with the locked bit set
and the waiter count decremented by exactly one, and the starving bit of the
result is clear precisely when the observed waiter count was one or this
thread is not itself starving; the update is one atomic add, not a CAS race. -/
theorem goSync_handoff_fixup (old r : Nat) (starving : Bool)
    (hst : old &&& GoSync.mutexStarving ≠ 0) (h32 : old < GoSync.word32)
    (hok : GoSync.lockSlowHandoff old starving = .ok r) :
    r &&& GoSync.mutexLocked ≠ 0 ∧
    r >>> GoSync.mutexWaiterShift + 1 = old >>> GoSync.mutexWaiterShift ∧
    (r &&& GoSync.mutexStarving = 0 ↔
      (old >>> GoSync.mutexWaiterShift = 1 ∨ starving = false)) := by
  obtain ⟨hlow, hbit, hwc, hcase⟩ := goSync_handoff_ok old r starving h32 hst hok
  have hL : GoSync.mutexLocked = 1 := rfl
  have hSv : GoSync.mutexStarving = 4 := rfl
  have hsh : GoSync.mutexWaiterShift = 3 := rfl
  have ha1 := nat_and_one r
  have ha4 := nat_and_four r
  have hs3r := nat_shr_three r
  have hs3o := nat_shr_three old
  rw [hL, hSv, hsh]
  rcases hcase with ⟨hc, hr⟩ | ⟨hc, hr⟩
  · subst hr
    refine ⟨by omega, by omega, ?_⟩
    constructor
    · intro _
      rcases hc with h | h
      · right
        cases hb : starving
        · rfl
        · exact absurd hb h
      · left
        omega
    · intro _
      omega
  · subst hr
    refine ⟨by omega, by omega, ?_⟩
    constructor
    · intro habs
      exfalso
      omega
    · rintro (h | h)
      · exfalso
        have := hc.2
        omega
      · rw [h] at hc
        simp at hc

theorem goSync_unlock_wake_eq (old : Nat) (h32 : old < GoSync.word32)
    (hg : ¬(old >>> GoSync.mutexWaiterShift = 0 ∨
        old &&& (GoSync.mutexLocked ||| GoSync.mutexWoken ||| GoSync.mutexStarving) ≠ 0)) :
    GoSync.unlockSlowNormalLoop old [] = ((old - 8) ||| 2, [false]) ∧
    old % 8 = 0 ∧ 8 ≤ old := by
  have hmask : (GoSync.mutexLocked ||| GoSync.mutexWoken ||| GoSync.mutexStarving) = 7 := rfl
  have ha7 := nat_and_seven old
  have hs3 := nat_shr_three old
  have hg2 := hg
  rw [hmask, show GoSync.mutexWaiterShift = 3 from rfl] at hg2
  push_neg at hg2
  obtain ⟨hg2a, hg2b⟩ := hg2
  have hm : old % 8 = 0 := by omega
  have hle : 8 ≤ old := by omega
  refine ⟨?_, hm, hle⟩
  simp only [GoSync.unlockSlowNormalLoop]
  rw [if_neg hg]
  have hsub : GoSync.addInt32 old (-((1 <<< GoSync.mutexWaiterShift : Nat) : Int)) = old - 8 := by
    have e : (-((1 <<< GoSync.mutexWaiterShift : Nat) : Int)) = -8 := by decide
    rw [e]
    unfold GoSync.addInt32 GoSync.word32 at *
    omega
  rw [hsub, show GoSync.mutexWoken = 2 from rfl]

/-- Claim C6: in normal mode (post-subtract starving bit clear), each pass of
the wake loop returns without signaling exactly when the observed state has no
waiters or any of the locked, woken or starving bits set; otherwise it moves
the state to one with the waiter count decremented by one and the woken bit
set (locked and starving bits unchanged) and signals exactly one parked thread
FIFO; after a failed CAS it retries on the newly read state. -/
theorem goSync_unlock_normal_mode (old s : Nat) (rest : List Nat)
    (h32 : old < GoSync.word32) :
    ((old >>> GoSync.mutexWaiterShift = 0 ∨
        old &&& (GoSync.mutexLocked ||| GoSync.mutexWoken ||| GoSync.mutexStarving) ≠ 0) →
      GoSync.unlockSlowNormalLoop old [] = (old, []) ∧
      GoSync.unlockSlowNormalLoop old (s :: rest) = (old, [])) ∧
    (¬(old >>> GoSync.mutexWaiterShift = 0 ∨
        old &&& (GoSync.mutexLocked ||| GoSync.mutexWoken ||| GoSync.mutexStarving) ≠ 0) →
      (GoSync.unlockSlowNormalLoop old []).1 >>> GoSync.mutexWaiterShift + 1 =
        old >>> GoSync.mutexWaiterShift ∧
      (GoSync.unlockSlowNormalLoop old []).1 &&& GoSync.mutexWoken ≠ 0 ∧
      (GoSync.unlockSlowNormalLoop old []).1 &&& GoSync.mutexLocked = old &&& GoSync.mutexLocked ∧
      (GoSync.unlockSlowNormalLoop old []).1 &&& GoSync.mutexStarving =
        old &&& GoSync.mutexStarving ∧
      (GoSync.unlockSlowNormalLoop old []).2 = [false] ∧
      GoSync.unlockSlowNormalLoop old (s :: rest) = GoSync.unlockSlowNormalLoop s rest) := by
  constructor
  · intro hg
    constructor
    · simp only [GoSync.unlockSlowNormalLoop]
      rw [if_pos hg]
    · simp only [GoSync.unlockSlowNormalLoop]
      rw [if_pos hg]
  · intro hg
    obtain ⟨heq, hm, hle⟩ := goSync_unlock_wake_eq old h32 hg
    rw [heq]
    dsimp only
    have hor2 := nat_or_two (old - 8)
    have ha1r := nat_and_one ((old - 8) ||| 2)
    have ha2r := nat_and_two ((old - 8) ||| 2)
    have ha4r := nat_and_four ((old - 8) ||| 2)
    have hs3r := nat_shr_three ((old - 8) ||| 2)
    have ha1o := nat_and_one old
    have ha2o := nat_and_two old
    have ha4o := nat_and_four old
    have ha7o := nat_and_seven old
    have hs3o := nat_shr_three old
    have hg2 := hg
    rw [show (GoSync.mutexLocked ||| GoSync.mutexWoken ||| GoSync.mutexStarving) = 7 from rfl,
      show GoSync.mutexWaiterShift = 3 from rfl] at hg2
    push_neg at hg2
    rw [show GoSync.mutexWoken = 2 from rfl, show GoSync.mutexLocked = 1 from rfl,
      show GoSync.mutexStarving = 4 from rfl, show GoSync.mutexWaiterShift = 3 from rfl]
    refine ⟨by omega, by omega, by omega, by omega, rfl, ?_⟩
    simp only [GoSync.unlockSlowNormalLoop]
    rw [if_neg hg]

/-- Claim C9: when the release slow path runs with the starving bit set in the
post-subtract state (and the fatal-error check passes), it leaves the state
word entirely unchanged and signals exactly one parked thread with LIFO
hand-off semantics. -/
theorem goSync_starving_unlock_frame (new : Nat) (l : List Nat)
    (hheld : (new + GoSync.mutexLocked) % GoSync.word32 &&& GoSync.mutexLocked ≠ 0)
    (hstv : new &&& GoSync.mutexStarving ≠ 0) :
    GoSync.unlockSlow new l = .ok (new, [true]) := by
  simp only [GoSync.unlockSlow]
  rw [if_neg hheld, if_neg hstv]

/-- Claim C8: the two state transitions that decrement the waiter-count field
— the normal-mode wake CAS of unlockSlow and the starvation hand-off add of
lockSlow — execute only from states whose waiter count is at least one, and
each decreases it by exactly one with no wrap-around, so the field never
underflows. -/
theorem goSync_waiter_no_underflow (old st r : Nat) (starving : Bool)
    (h32 : old < GoSync.word32) (hst32 : st < GoSync.word32)
    (hstv : st &&& GoSync.mutexStarving ≠ 0) :
    (¬(old >>> GoSync.mutexWaiterShift = 0 ∨
        old &&& (GoSync.mutexLocked ||| GoSync.mutexWoken ||| GoSync.mutexStarving) ≠ 0) →
      1 ≤ old >>> GoSync.mutexWaiterShift ∧
      (GoSync.unlockSlowNormalLoop old []).1 >>> GoSync.mutexWaiterShift + 1 =
        old >>> GoSync.mutexWaiterShift) ∧
    (GoSync.lockSlowHandoff st starving = .ok r →
      1 ≤ st >>> GoSync.mutexWaiterShift ∧
      r >>> GoSync.mutexWaiterShift + 1 = st >>> GoSync.mutexWaiterShift) := by
  constructor
  · intro hg
    obtain ⟨heq, hm, hle⟩ := goSync_unlock_wake_eq old h32 hg
    rw [heq]
    dsimp only
    have hor2 := nat_or_two (old - 8)
    have hs3r := nat_shr_three ((old - 8) ||| 2)
    have hs3o := nat_shr_three old
    have ha7o := nat_and_seven old
    have hg2 := hg
    rw [show (GoSync.mutexLocked ||| GoSync.mutexWoken ||| GoSync.mutexStarving) = 7 from rfl,
      show GoSync.mutexWaiterShift = 3 from rfl] at hg2
    push_neg at hg2
    rw [show GoSync.mutexWaiterShift = 3 from rfl]
    constructor
    · omega
    · omega
  · intro hok
    obtain ⟨hlow, hbit, hwc, hcase⟩ := goSync_handoff_ok st r starving hst32 hstv hok
    have hs3r := nat_shr_three r
    have hs3s := nat_shr_three st
    rw [show GoSync.mutexWaiterShift = 3 from rfl]
    rcases hcase with ⟨_, hr⟩ | ⟨_, hr⟩ <;> subst hr <;> exact ⟨by omega, by omega⟩

namespace GoSync

/-- Acquire path `Lock` (mutex.go lines 72-83) in a single-threaded, interference-free run:
the fast-path CAS from 0 to locked succeeds exactly when the state is 0;
otherwise one pass of lockSlow runs with `starving = false`, `awoke = false`
(the spin heuristic `runtime_canSpin` reports false with a single thread) and
its CAS succeeds; if the observed state was locked or starving the goroutine
parks on the semaphore, which with no other thread blocks forever (`none`). -/
def Lock (state : Nat) : Option Nat :=
  if state = 0 then some mutexLocked
  else
    match lockSlowCandidate state false false with
    | .error _ => none
    | .ok new => if state &&& (mutexLocked ||| mutexStarving) = 0 then some new else none

end GoSync

namespace GoSyncOld

/-- part_000 line 30: the locked bit. -/
def mutexLocked : Nat := 1

/-- part_000 line 31: the woken bit. -/
def mutexWoken : Nat := 2

/-- part_000 line 32: the waiter count occupies the bits above this shift. -/
def mutexWaiterShift : Nat := 2

/-- Acquire path `Lock` (part_000 lines 38-66) in a single-threaded, interference-free run:
the fast-path CAS from 0 to locked succeeds exactly when the state is 0;
otherwise one pass of the acquire loop runs with `awoke = false` and its CAS
succeeds; if the observed state was locked the goroutine parks on the
semaphore, which with no other thread blocks forever (`none`). -/
def Lock (state : Nat) : Option Nat :=
  if state = 0 then some mutexLocked
  else
    let old := state
    let new := if old &&& mutexLocked ≠ 0 then
        GoSync.addInt32 old ((1 <<< mutexWaiterShift : Nat) : Int)
      else old ||| mutexLocked
    if old &&& mutexLocked = 0 then some new else none

/-- Release path `Unlock` (part_000 lines 74-103) in an interference-free run: drop the
locked bit, raise the fatal error if the lock was not held, then one pass of
the wake loop whose CAS succeeds; the returned list records the
`runtime_Semrelease` calls issued. -/
def Unlock (state : Nat) : Except String (Nat × List Unit) :=
  let new := GoSync.addInt32 state (-(mutexLocked : Int))
  if (new + mutexLocked) % GoSync.word32 &&& mutexLocked = 0 then
    .error "sync: unlock of unlocked mutex"
  else
    let old := new
    if old >>> mutexWaiterShift = 0 ∨ old &&& (mutexLocked ||| mutexWoken) ≠ 0 then
      .ok (old, [])
    else
      .ok ((GoSync.addInt32 old (-((1 <<< mutexWaiterShift : Nat) : Int))) ||| mutexWoken, [()])

end GoSyncOld

/-- State of the go1.16 mutex after `n` single-threaded alternating
Lock/Unlock calls starting from the all-zero state (`none` once an operation
blocked or failed). -/
def GoSync.altTrace : Nat → Option Nat
  | 0 => some 0
  | n + 1 =>
    (GoSync.altTrace n).bind fun s =>
      if n % 2 = 0 then GoSync.Lock s
      else ((GoSync.Unlock s []).toOption).map Prod.fst

/-- State of the older mutex after `n` single-threaded alternating Lock/Unlock
calls starting from the all-zero state. -/
def GoSyncOld.altTrace : Nat → Option Nat
  | 0 => some 0
  | n + 1 =>
    (GoSyncOld.altTrace n).bind fun s =>
      if n % 2 = 0 then GoSyncOld.Lock s
      else ((GoSyncOld.Unlock s).toOption).map Prod.fst

theorem altTrace_eq (n : Nat) :
    GoSync.altTrace n = some (n % 2) ∧ GoSyncOld.altTrace n = some (n % 2) := by
  induction n with
  | zero => exact ⟨rfl, rfl⟩
  | succ n ih =>
    obtain ⟨h1, h2⟩ := ih
    rcases Nat.mod_two_eq_zero_or_one n with hp | hp
    · have hn1 : (n + 1) % 2 = 1 := by omega
      constructor
      · show (GoSync.altTrace n).bind _ = _
        rw [h1, hp, hn1]
        rfl
      · show (GoSyncOld.altTrace n).bind _ = _
        rw [h2, hp, hn1]
        rfl
    · have hn1 : (n + 1) % 2 = 0 := by omega
      constructor
      · show (GoSync.altTrace n).bind _ = _
        rw [h1, hp, hn1]
        rfl
      · show (GoSyncOld.altTrace n).bind _ = _
        rw [h2, hp, hn1]
        rfl

theorem goSyncOld_sub_locked (x : Nat) (h : x < GoSync.word32) :
    GoSync.addInt32 x (-(GoSyncOld.mutexLocked : Int)) =
      if x = 0 then GoSync.word32 - 1 else x - 1 := by
  unfold GoSync.addInt32 GoSyncOld.mutexLocked GoSync.word32 at *
  split <;> omega

theorem goSyncOld_unlock_error_iff (state : Nat) (h32 : state < GoSync.word32) :
    GoSyncOld.Unlock state = .error "sync: unlock of unlocked mutex" ↔
      state &&& GoSyncOld.mutexLocked = 0 := by
  have hsub := goSyncOld_sub_locked state h32
  simp only [GoSyncOld.Unlock, hsub]
  have hw : GoSync.word32 = 4294967296 := rfl
  have hL : GoSyncOld.mutexLocked = 1 := rfl
  rw [hw] at h32
  by_cases h0 : state = 0
  · subst h0
    simp only [if_pos rfl, hw, hL]
    norm_num
  · simp only [if_neg h0, hw, hL]
    rcases Nat.mod_two_eq_zero_or_one state with hpar | hpar
    · have hmod : (state - 1 + 1) % 4294967296 = state := by omega
      have hand : state &&& 1 = 0 := by rw [nat_and_one]; omega
      simp [hmod, hand]
    · have hmod : (state - 1 + 1) % 4294967296 = state := by omega
      have hand : state &&& 1 = 1 := by rw [nat_and_one]; omega
      simp only [hmod, hand]
      norm_num
      split <;> simp

theorem goSync_unlock_error_iff (state : Nat) (l : List Nat) (h32 : state < GoSync.word32) :
    GoSync.Unlock state l = .error "sync: unlock of unlocked mutex" ↔
      state &&& GoSync.mutexLocked = 0 := by
  have hsub := goSync_sub_locked state h32
  simp only [GoSync.Unlock, GoSync.unlockSlow, hsub]
  have hw : GoSync.word32 = 4294967296 := rfl
  have hL : GoSync.mutexLocked = 1 := rfl
  rw [hw] at h32
  by_cases h0 : state = 0
  · subst h0
    simp only [if_pos rfl, hw, hL]
    norm_num
  · simp only [if_neg h0, hw, hL]
    rcases Nat.mod_two_eq_zero_or_one state with hpar | hpar
    · have hmod : (state - 1 + 1) % 4294967296 = state := by omega
      have hand : state &&& 1 = 0 := by rw [nat_and_one]; omega
      have hnz : state - 1 ≠ 0 := by omega
      simp [hnz, hmod, hand]
    · have hmod : (state - 1 + 1) % 4294967296 = state := by omega
      have hand : state &&& 1 = 1 := by rw [nat_and_one]; omega
      by_cases hz : state - 1 = 0
      · simp [hz, hand]
      · simp only [ne_eq, hz, not_false_iff, if_true, hmod, hand]
        norm_num
        split <;> simp

/-- Claim C10: in every single-threaded alternating Lock/Unlock sequence from
the all-zero state the two mutex implementations produce identical state-word
traces, alternating between 0 and the locked-only word; and both raise the
fatal error "sync: unlock of unlocked mutex" exactly when Unlock is called on
a state whose locked bit is clear. -/
theorem mutex_versions_agree (n s : Nat) (h32 : s < GoSync.word32) :
    GoSync.altTrace n = GoSyncOld.altTrace n ∧
    GoSync.altTrace n = some (n % 2) ∧
    (GoSync.Unlock s [] = .error "sync: unlock of unlocked mutex" ↔
      s &&& GoSync.mutexLocked = 0) ∧
    (GoSyncOld.Unlock s = .error "sync: unlock of unlocked mutex" ↔
      s &&& GoSyncOld.mutexLocked = 0) := by
  obtain ⟨h1, h2⟩ := altTrace_eq n
  exact ⟨by rw [h1, h2], h1, goSync_unlock_error_iff s [] h32,
    goSyncOld_unlock_error_iff s h32⟩

namespace SpecMap

/-- Modelled from the spec: the ConcurrentMap of spec sections 3 and 4.2 is
absent from src/; this model follows the specification text.  An entry slot is
the tagged state of spec section 9: a live value-reference, a logically
deleted slot (`nil`), or a permanently expunged slot. -/
inductive Slot where
  | live (v : Nat)
  | deleted
  | expunged
deriving DecidableEq

/-- Modelled from the spec: the ConcurrentMap state.  Entry objects carry
numeric identities in `entries`, so the readSnapshot (`readM`) and the
writeMap (`dirty`) can share one mutable entry object for a key; `dirty` is
`none` when not in amended mode. -/
structure MapState where
  entries : List (Nat × Slot)
  readM : List (Nat × Nat)
  amended : Bool
  dirty : Option (List (Nat × Nat))
  misses : Nat
  nextId : Nat

/-- Association-list lookup by key. -/
def alookup : List (Nat × Nat) → Nat → Option Nat
  | [], _ => none
  | (k0, v0) :: rest, key => if k0 = key then some v0 else alookup rest key

/-- Association-list insert-or-overwrite. -/
def aset : List (Nat × Nat) → Nat → Nat → List (Nat × Nat)
  | [], k, v => [(k, v)]
  | (k0, v0) :: rest, k, v =>
    if k0 = k then (k, v) :: rest else (k0, v0) :: aset rest k v

/-- Entry-heap lookup by entry id. -/
def slookup : List (Nat × Slot) → Nat → Option Slot
  | [], _ => none
  | (k0, v0) :: rest, key => if k0 = key then some v0 else slookup rest key

/-- Entry-heap insert-or-overwrite. -/
def sset : List (Nat × Slot) → Nat → Slot → List (Nat × Slot)
  | [], k, v => [(k, v)]
  | (k0, v0) :: rest, k, v =>
    if k0 = k then (k, v) :: rest else (k0, v0) :: sset rest k v

/-- The slot currently held by entry object `e`. -/
def getSlot (M : MapState) (e : Nat) : Slot := (slookup M.entries e).getD .deleted

/-- Atomically store slot `s` into entry object `e`. -/
def setSlot (M : MapState) (e : Nat) (s : Slot) : MapState :=
  { M with entries := sset M.entries e s }

/-- Modelled from the spec: the value read from a slot — a live slot yields
its value, a deleted or expunged slot reads as not-found. -/
def slotValue : Slot → Option Nat
  | .live v => some v
  | .deleted => none
  | .expunged => none

/-- Modelled from the spec: miss accounting and promotion — every locked
fallback to the writeMap counts a miss; when misses reach the writeMap size,
the writeMap is promoted wholesale to the readSnapshot, the writeMap is
discarded and the miss count reset. -/
def missLocked (M : MapState) : MapState :=
  let m := M.misses + 1
  if m < (M.dirty.getD []).length then { M with misses := m }
  else { M with readM := M.dirty.getD [], amended := false, dirty := none, misses := 0 }

/-- Modelled from the spec: `load` (spec section 4.2 read path), sequential:
consult the readSnapshot without locking; on a miss with `amended` set,
re-check the snapshot under the lock, then consult the writeMap and record a
miss.  Returns the updated state and the result (`some v` for `(v, true)`). -/
def load (M : MapState) (k : Nat) : MapState × Option Nat :=
  match alookup M.readM k with
  | some e => (M, slotValue (getSlot M e))
  | none =>
    if M.amended = true then
      match alookup M.readM k with
      | some e => (M, slotValue (getSlot M e))
      | none =>
        let r := (alookup (M.dirty.getD []) k).bind fun e => slotValue (getSlot M e)
        (missLocked M, r)
    else (M, none)

/-- Modelled from the spec: the lock-free CAS store into a slot, refused when
the slot is expunged. -/
def tryStore (s : Slot) (v : Nat) : Option Slot :=
  match s with
  | .expunged => none
  | _ => some (.live v)

/-- Modelled from the spec: during writeMap materialization an
already-deleted slot is promoted to expunged and skipped; live slots are
carried over. -/
def tryExpunge (M : MapState) (e : Nat) : MapState × Bool :=
  match getSlot M e with
  | .deleted => (setSlot M e .expunged, true)
  | .expunged => (M, true)
  | .live _ => (M, false)

/-- One step of the writeMap materialization fold. -/
def dirtyStep (acc : MapState × List (Nat × Nat)) (kv : Nat × Nat) :
    MapState × List (Nat × Nat) :=
  let r := tryExpunge acc.1 kv.2
  if r.2 then (r.1, acc.2) else (r.1, aset acc.2 kv.1 kv.2)

/-- Modelled from the spec: materialize the writeMap as a copy of the
readSnapshot, expunging already-deleted slots during the copy. -/
def dirtyLocked (M : MapState) : MapState :=
  let f := M.readM.foldl dirtyStep (M, [])
  { f.1 with dirty := some f.2 }

/-- Modelled from the spec: the locked portion of `store` (spec section 4.2
write path): un-expunge and mirror into the writeMap a snapshot entry found
expunged; store directly into a writeMap-only entry; otherwise materialize the
writeMap if needed, mark `amended`, and insert a fresh entry. -/
def storeLocked (M : MapState) (k v : Nat) : MapState :=
  match alookup M.readM k with
  | some e =>
    let M1 := if getSlot M e = .expunged then
        { setSlot M e .deleted with dirty := some (aset (M.dirty.getD []) k e) }
      else M
    setSlot M1 e (.live v)
  | none =>
    match alookup (M.dirty.getD []) k with
    | some e => setSlot M e (.live v)
    | none =>
      let M1 := if M.amended = false then { dirtyLocked M with amended := true } else M
      { setSlot M1 M.nextId (.live v) with
          dirty := some (aset (M1.dirty.getD []) k M.nextId),
          nextId := M.nextId + 1 }

/-- Modelled from the spec: `store` (spec section 4.2 write path), sequential:
a key present in the readSnapshot with a non-expunged slot is written by the
lock-free slot CAS; everything else goes through the locked path. -/
def store (M : MapState) (k v : Nat) : MapState :=
  match alookup M.readM k with
  | some e =>
    match tryStore (getSlot M e) v with
    | some s => setSlot M e s
    | none => storeLocked M k v
  | none => storeLocked M k v

end SpecMap

theorem specMap_alookup_aset (l : List (Nat × Nat)) (k v : Nat) :
    SpecMap.alookup (SpecMap.aset l k v) k = some v := by
  induction l with
  | nil => simp [SpecMap.aset, SpecMap.alookup]
  | cons head rest ih =>
    obtain ⟨k0, v0⟩ := head
    by_cases h : k0 = k
    · simp [SpecMap.aset, SpecMap.alookup, h]
    · simp [SpecMap.aset, SpecMap.alookup, h, ih]

theorem specMap_slookup_sset (l : List (Nat × SpecMap.Slot)) (k : Nat) (v : SpecMap.Slot) :
    SpecMap.slookup (SpecMap.sset l k v) k = some v := by
  induction l with
  | nil => simp [SpecMap.sset, SpecMap.slookup]
  | cons head rest ih =>
    obtain ⟨k0, v0⟩ := head
    by_cases h : k0 = k
    · simp [SpecMap.sset, SpecMap.slookup, h]
    · simp [SpecMap.sset, SpecMap.slookup, h, ih]

theorem specMap_getSlot_setSlot (M : SpecMap.MapState) (e : Nat) (s : SpecMap.Slot) :
    SpecMap.getSlot (SpecMap.setSlot M e s) e = s := by
  simp [SpecMap.getSlot, SpecMap.setSlot, specMap_slookup_sset]

theorem specMap_tryExpunge_readM (M : SpecMap.MapState) (e : Nat) :
    (SpecMap.tryExpunge M e).1.readM = M.readM := by
  unfold SpecMap.tryExpunge
  cases h : SpecMap.getSlot M e <;> simp [SpecMap.setSlot]

theorem specMap_fold_dirtyStep_readM (l : List (Nat × Nat))
    (acc : SpecMap.MapState × List (Nat × Nat)) :
    (List.foldl SpecMap.dirtyStep acc l).1.readM = acc.1.readM := by
  induction l generalizing acc with
  | nil => rfl
  | cons head rest ih =>
    rw [List.foldl_cons, ih]
    unfold SpecMap.dirtyStep
    by_cases h : (SpecMap.tryExpunge acc.1 head.2).2 = true
    · simp only [h, if_true]
      exact specMap_tryExpunge_readM acc.1 head.2
    · simp only [h, if_false]
      exact specMap_tryExpunge_readM acc.1 head.2

theorem specMap_dirtyLocked_readM (M : SpecMap.MapState) :
    (SpecMap.dirtyLocked M).readM = M.readM := by
  unfold SpecMap.dirtyLocked
  exact specMap_fold_dirtyStep_readM M.readM (M, [])

theorem specMap_setSlot_readM (M : SpecMap.MapState) (e : Nat) (s : SpecMap.Slot) :
    (SpecMap.setSlot M e s).readM = M.readM := rfl

theorem specMap_setSlot_amended (M : SpecMap.MapState) (e : Nat) (s : SpecMap.Slot) :
    (SpecMap.setSlot M e s).amended = M.amended := rfl

theorem specMap_setSlot_dirty (M : SpecMap.MapState) (e : Nat) (s : SpecMap.Slot) :
    (SpecMap.setSlot M e s).dirty = M.dirty := rfl

theorem specMap_setSlot_entries (M : SpecMap.MapState) (e : Nat) (s : SpecMap.Slot) :
    (SpecMap.setSlot M e s).entries = SpecMap.sset M.entries e s := rfl

/-- Claim C3 (spec-modelled): a `store(k, v)` followed immediately by
`load(k)`, with no intervening operation, returns `(v, true)` — here
`some v` — for every well-formed map state (the writeMap is `none` whenever
the map is not in amended mode, as the spec prescribes). -/
theorem specMap_store_load_roundtrip (M : SpecMap.MapState) (k v : Nat)
    (hwf : M.amended = false → M.dirty = none) :
    (SpecMap.load (SpecMap.store M k v) k).2 = some v := by
  cases hr : SpecMap.alookup M.readM k with
  | some e =>
    cases hslot : SpecMap.getSlot M e with
    | live w =>
      simp [SpecMap.store, SpecMap.load, SpecMap.tryStore, SpecMap.slotValue, hr, hslot,
        specMap_setSlot_readM, specMap_getSlot_setSlot]
    | deleted =>
      simp [SpecMap.store, SpecMap.load, SpecMap.tryStore, SpecMap.slotValue, hr, hslot,
        specMap_setSlot_readM, specMap_getSlot_setSlot]
    | expunged =>
      simp [SpecMap.store, SpecMap.storeLocked, SpecMap.load, SpecMap.tryStore,
        SpecMap.slotValue, hr, hslot, specMap_setSlot_readM, specMap_getSlot_setSlot]
  | none =>
    cases hd : SpecMap.alookup (M.dirty.getD []) k with
    | some e =>
      have ham : M.amended = true := by
        cases hM : M.amended
        · rw [hwf hM] at hd
          simp [SpecMap.alookup] at hd
        · rfl
      simp [SpecMap.store, SpecMap.storeLocked, SpecMap.load, SpecMap.slotValue, hr, hd, ham,
        specMap_setSlot_readM, specMap_setSlot_amended, specMap_setSlot_dirty,
        specMap_getSlot_setSlot]
    | none =>
      cases hM : M.amended with
      | false =>
        simp [SpecMap.store, SpecMap.storeLocked, SpecMap.load, SpecMap.slotValue, hr, hd, hM,
          specMap_setSlot_readM, specMap_setSlot_amended, specMap_setSlot_dirty,
          specMap_setSlot_entries, SpecMap.getSlot, specMap_slookup_sset,
          specMap_alookup_aset, specMap_dirtyLocked_readM]
      | true =>
        simp [SpecMap.store, SpecMap.storeLocked, SpecMap.load, SpecMap.slotValue, hr, hd, hM,
          specMap_setSlot_readM, specMap_setSlot_amended, specMap_setSlot_dirty,
          specMap_setSlot_entries, SpecMap.getSlot, specMap_slookup_sset,
          specMap_alookup_aset]

/-- Witness for C2 at the concrete state 2 (woken bit only, locked bit clear). -/
theorem goSync_unlock_fatal_iff_unlocked_witness :
    (GoSync.Unlock 2 [] = .error "sync: unlock of unlocked mutex" ↔
      2 &&& GoSync.mutexLocked = 0) ∧
    ((GoSync.addInt32 2 (-(GoSync.mutexLocked : Int)) + GoSync.mutexLocked) % GoSync.word32 &&&
        GoSync.mutexLocked = 0 ↔ 2 &&& GoSync.mutexLocked = 0) :=
  goSync_unlock_fatal_iff_unlocked 2 [] (by decide)

/-- Witness for C3 at the empty map. -/
theorem specMap_store_load_roundtrip_witness :
    (SpecMap.load (SpecMap.store
      { entries := [], readM := [], amended := false, dirty := none, misses := 0, nextId := 0 }
      1 2) 1).2 = some 2 :=
  specMap_store_load_roundtrip
    { entries := [], readM := [], amended := false, dirty := none, misses := 0, nextId := 0 }
    1 2 (fun _ => rfl)

/-- Witness for C4 at the concrete state 12 (starving bit, one waiter). -/
theorem goSync_handoff_fixup_witness :
    1 &&& GoSync.mutexLocked ≠ 0 ∧
    1 >>> GoSync.mutexWaiterShift + 1 = 12 >>> GoSync.mutexWaiterShift ∧
    (1 &&& GoSync.mutexStarving = 0 ↔
      (12 >>> GoSync.mutexWaiterShift = 1 ∨ (false : Bool) = false)) :=
  goSync_handoff_fixup 12 1 false (by decide) (by decide) (by rfl)

/-- Witness for C5 at the concrete state 9 (locked, one waiter). -/
theorem goSync_lockSlow_candidate_spec_witness :
    (GoSync.lockSlowCandidate 9 false false = .error "sync: inconsistent mutex state" ↔
      (false : Bool) = true ∧ 9 &&& GoSync.mutexWoken = 0) ∧
    (GoSync.lockSlowCandidate 9 false false = .ok 17 →
      (17 &&& GoSync.mutexLocked ≠ 0 ↔
        9 &&& GoSync.mutexStarving = 0 ∨ 9 &&& GoSync.mutexLocked ≠ 0) ∧
      17 >>> GoSync.mutexWaiterShift =
        9 >>> GoSync.mutexWaiterShift +
          (if 9 &&& (GoSync.mutexLocked ||| GoSync.mutexStarving) ≠ 0 then 1 else 0) ∧
      (17 &&& GoSync.mutexStarving ≠ 0 ↔
        9 &&& GoSync.mutexStarving ≠ 0 ∨ ((false : Bool) = true ∧ 9 &&& GoSync.mutexLocked ≠ 0)) ∧
      17 &&& GoSync.mutexWoken =
        (if (false : Bool) = true then 0 else 9 &&& GoSync.mutexWoken)) :=
  goSync_lockSlow_candidate_spec 9 false false 17 (by decide)

/-- Witness for C6 at the concrete state 8 (one waiter, all low bits clear). -/
theorem goSync_unlock_normal_mode_witness :
    ((8 >>> GoSync.mutexWaiterShift = 0 ∨
        8 &&& (GoSync.mutexLocked ||| GoSync.mutexWoken ||| GoSync.mutexStarving) ≠ 0) →
      GoSync.unlockSlowNormalLoop 8 [] = (8, []) ∧
      GoSync.unlockSlowNormalLoop 8 (0 :: []) = (8, [])) ∧
    (¬(8 >>> GoSync.mutexWaiterShift = 0 ∨
        8 &&& (GoSync.mutexLocked ||| GoSync.mutexWoken ||| GoSync.mutexStarving) ≠ 0) →
      (GoSync.unlockSlowNormalLoop 8 []).1 >>> GoSync.mutexWaiterShift + 1 =
        8 >>> GoSync.mutexWaiterShift ∧
      (GoSync.unlockSlowNormalLoop 8 []).1 &&& GoSync.mutexWoken ≠ 0 ∧
      (GoSync.unlockSlowNormalLoop 8 []).1 &&& GoSync.mutexLocked = 8 &&& GoSync.mutexLocked ∧
      (GoSync.unlockSlowNormalLoop 8 []).1 &&& GoSync.mutexStarving =
        8 &&& GoSync.mutexStarving ∧
      (GoSync.unlockSlowNormalLoop 8 []).2 = [false] ∧
      GoSync.unlockSlowNormalLoop 8 (0 :: []) = GoSync.unlockSlowNormalLoop 0 []) :=
  goSync_unlock_normal_mode 8 0 [] (by decide)

/-- Witness for C7 at the concrete state 12 (starving bit, one waiter). -/
theorem goSync_handoff_consistency_check_witness :
    GoSync.lockSlowHandoff 12 false = .error "sync: inconsistent mutex state" ↔
      (12 &&& GoSync.mutexLocked ≠ 0 ∨ 12 &&& GoSync.mutexWoken ≠ 0 ∨
        12 >>> GoSync.mutexWaiterShift = 0) :=
  goSync_handoff_consistency_check 12 false (by decide)

/-- Witness for C8 at the concrete states 8 (normal wake) and 12 (hand-off). -/
theorem goSync_waiter_no_underflow_witness :
    (¬(8 >>> GoSync.mutexWaiterShift = 0 ∨
        8 &&& (GoSync.mutexLocked ||| GoSync.mutexWoken ||| GoSync.mutexStarving) ≠ 0) →
      1 ≤ 8 >>> GoSync.mutexWaiterShift ∧
      (GoSync.unlockSlowNormalLoop 8 []).1 >>> GoSync.mutexWaiterShift + 1 =
        8 >>> GoSync.mutexWaiterShift) ∧
    (GoSync.lockSlowHandoff 12 false = .ok 1 →
      1 ≤ 12 >>> GoSync.mutexWaiterShift ∧
      1 >>> GoSync.mutexWaiterShift + 1 = 12 >>> GoSync.mutexWaiterShift) :=
  goSync_waiter_no_underflow 8 12 1 false (by decide) (by decide) (by decide)

/-- Witness for C9 at the concrete post-subtract state 12 (starving, one waiter). -/
theorem goSync_starving_unlock_frame_witness :
    GoSync.unlockSlow 12 [] = .ok (12, [true]) :=
  goSync_starving_unlock_frame 12 [] (by decide) (by decide)

/-- Witness for C10 at trace length 2 and state 0. -/
theorem mutex_versions_agree_witness :
    GoSync.altTrace 2 = GoSyncOld.altTrace 2 ∧
    GoSync.altTrace 2 = some (2 % 2) ∧
    (GoSync.Unlock 0 [] = .error "sync: unlock of unlocked mutex" ↔
      0 &&& GoSync.mutexLocked = 0) ∧
    (GoSyncOld.Unlock 0 = .error "sync: unlock of unlocked mutex" ↔
      0 &&& GoSyncOld.mutexLocked = 0) :=
  mutex_versions_agree 2 0 (by decide)
